import Mathlib

/-!
Verification of the IFC-to-Fragments backend (an HTTP wrapper around an
external conversion engine).

The development shallowly embeds the repository code:
  - `src/ifc-to-fragments-backend/src/services/ifc-converter.ts`
    (the `IfcToFragmentsConverter` class and its singleton life cycle),
  - `src/ifc-to-fragments-backend/src/utils/file-utils.ts`,
  - the `POST /convert` and `GET /status` route handlers
    (both variants found in `src/unnamed/part_000`),
  - the error-handling middleware (`errorHandler`, `ApiError`,
    `notFoundHandler`) whose source is listed at the end of
    `src/ifc-to-fragments-backend/README.md`.

External collaborators are modelled at their interface:
  - the conversion engine (`IfcImporter` from the external
    `@thatopen/fragments` package) is a record of the configuration fields
    the repository code reads and writes; its `process` transform is an
    explicit function parameter (it may fail), assumed not to write the
    configuration fields the wrapper owns;
  - the file system is an association list from paths to byte contents;
  - `multer` staging is modelled from its documented interface as used
    by the repository: the file filter runs first, the 100 MiB
    `fileSize` limit raises a `MulterError` with message
    "File too large", an accepted upload is written to a generated path.

Machine integers do not occur (sizes are JavaScript numbers used only as
counts), so byte counts are plain `Nat` and byte buffers are `List Nat`.
Thrown JavaScript exceptions become `Except` / explicit error values.
-/

namespace IfcBackend

/-! ### Types (src/types/index.ts, quoted in src/unnamed/part_001) -/

/-- ConversionOptions from `src/types/index.ts`: every field optional. -/
structure ConversionOptions where
  coordinateToOrigin : Option Bool
  name : Option String
  excludedCategories : Option (List Nat)
  includeProperties : Option Bool
deriving DecidableEq, Repr

/-- Metadata block of a ConversionResult. -/
structure ConversionMetadata where
  name : Option String
  timestamp : String
  size : Nat
  options : ConversionOptions
deriving DecidableEq, Repr

/-- ConversionResult from `src/types/index.ts`: binary data plus metadata. -/
structure ConversionResult where
  data : List Nat
  metadata : ConversionMetadata
deriving DecidableEq, Repr

/-! ### The external engine (`IfcImporter` of `@thatopen/fragments`)

Only the configuration surface touched by `ifc-converter.ts` is modelled.
The numeric IFC class codes come from the external `web-ifc` package; the
code only adds them to a set and looks one of them up, so all that matters
here is that they are fixed distinct naturals. -/

/-- Wasm location config (`importer.wasm.path` / `importer.wasm.absolute`). -/
structure WasmConfig where
  path : String
  absolute : Bool
deriving DecidableEq, Repr

/-- The persistent web-ifc settings object owned by the importer. The
repository code only ever reads and writes `COORDINATE_TO_ORIGIN`. -/
structure WebIfcSettings where
  COORDINATE_TO_ORIGIN : Bool
deriving DecidableEq, Repr

/-- Relation table entry (`forRelating` / `forRelated`). -/
structure RelationConfig where
  forRelating : String
  forRelated : String
deriving DecidableEq, Repr

/-- Configuration state of one engine instance, as seen by the wrapper. -/
structure IfcImporter where
  wasm : WasmConfig
  webIfcSettings : WebIfcSettings
  includeUniqueAttributes : Bool
  includeRelationNames : Bool
  abstractClasses : List Nat
  relations : List (Nat × RelationConfig)
deriving DecidableEq, Repr

/-- Stand-in codes for the `WEBIFC.IFC*` constants used in initialize();
their concrete values live in the external package and are irrelevant
to the claims, only their identity is used. -/
def IFCPROPERTYSET : Nat := 0
def IFCPROPERTYSINGLEVALUE : Nat := 1
def IFCPROPERTYLISTVALUE : Nat := 2
def IFCPROPERTYENUMERATEDVALUE : Nat := 3
def IFCPROPERTYBOUNDEDVALUE : Nat := 4
def IFCPROPERTYTABLEVALUE : Nat := 5
def IFCPROPERTYREFERENCEVALUE : Nat := 6
def IFCPROPERTYSETDEFINITION : Nat := 7
def IFCPROPERTYDEFINITION : Nat := 8
def IFCPROPERTY : Nat := 9
def IFCELEMENTQUANTITY : Nat := 10
def IFCQUANTITYLENGTH : Nat := 11
def IFCQUANTITYAREA : Nat := 12
def IFCQUANTITYVOLUME : Nat := 13
def IFCQUANTITYWEIGHT : Nat := 14
def IFCQUANTITYCOUNT : Nat := 15
def IFCRELDEFINESBYPROPERTIES : Nat := 16

/-- The propertyClasses array of initialize(). -/
def propertyClasses : List Nat :=
  [IFCPROPERTYSET, IFCPROPERTYSINGLEVALUE, IFCPROPERTYLISTVALUE,
   IFCPROPERTYENUMERATEDVALUE, IFCPROPERTYBOUNDEDVALUE,
   IFCPROPERTYTABLEVALUE, IFCPROPERTYREFERENCEVALUE,
   IFCPROPERTYSETDEFINITION, IFCPROPERTYDEFINITION, IFCPROPERTY,
   IFCELEMENTQUANTITY, IFCQUANTITYLENGTH, IFCQUANTITYAREA,
   IFCQUANTITYVOLUME, IFCQUANTITYWEIGHT, IFCQUANTITYCOUNT]

/-! ### Errors

The TypeScript code throws plain `Error` values distinguished only by
their messages; the constructors below record the throw site (the
specification taxonomy: NotInitializedError, InitializationError,
ConversionError) while preserving the exact message built at it. -/

/-- Errors thrown by `IfcToFragmentsConverter` methods. -/
inductive ConvError where
  | notInitialized (message : String)
  | initializationError (message : String)
  | conversionError (message : String)
deriving DecidableEq, Repr

/-! ### Converter Service (`src/services/ifc-converter.ts`) -/

/-- State of the `IfcToFragmentsConverter` class: the nullable private
`ifcImporter` handle plus the constructor-supplied wasm path. -/
structure IfcToFragmentsConverter where
  ifcImporter : Option IfcImporter
  wasmPath : String
deriving DecidableEq, Repr

/-- Constructor with its default argument `"./node_modules/web-ifc/"`. -/
def IfcToFragmentsConverter.new : IfcToFragmentsConverter :=
  { ifcImporter := none, wasmPath := "./node_modules/web-ifc/" }

/-- The converter is in the Ready state (engine handle present). -/
def IfcToFragmentsConverter.isReady (c : IfcToFragmentsConverter) : Bool :=
  c.ifcImporter.isSome

/-- Body of initialize() after `new IfcImporter()` returned `imp0`:
sets the wasm location, the default web-ifc settings
(COORDINATE_TO_ORIGIN true), the attribute flags, adds every property
class to the abstract class set, and inserts the
IFCRELDEFINESBYPROPERTIES relation when absent. -/
def configureImporter (c : IfcToFragmentsConverter) (imp0 : IfcImporter) :
    IfcImporter :=
  let imp1 := { imp0 with
    wasm := { path := c.wasmPath, absolute := false },
    webIfcSettings := { COORDINATE_TO_ORIGIN := true },
    includeUniqueAttributes := true,
    includeRelationNames := true }
  let imp2 := propertyClasses.foldl
    (fun i classId =>
      { i with abstractClasses :=
          if classId ∈ i.abstractClasses then i.abstractClasses
          else i.abstractClasses ++ [classId] }) imp1
  if (imp2.relations.lookup IFCRELDEFINESBYPROPERTIES).isSome then imp2
  else { imp2 with relations := imp2.relations ++
    [(IFCRELDEFINESBYPROPERTIES,
      { forRelating := "RelatingPropertyDefinition",
        forRelated := "RelatedObjects" })] }

/-- initialize(): `construct` is the outcome of `new IfcImporter()`
(the external constructor may throw). On success the configured
instance replaces any previous handle; a constructor throw is wrapped
into the InitializationError message and the state is left unchanged. -/
def IfcToFragmentsConverter.initialize (construct : Except String IfcImporter)
    (c : IfcToFragmentsConverter) :
    Except ConvError IfcToFragmentsConverter :=
  match construct with
  | .error message =>
      .error (.initializationError
        ("Failed to initialize IFC importer: " ++ message))
  | .ok imp0 =>
      .ok { c with ifcImporter := some (configureImporter c imp0) }

/-- convert(): the external `importer.process` transform is the explicit
parameter `process` (it reads the importer configuration and may fail);
`now` is the ISO-8601 timestamp taken at completion. The updated
converter state is returned alongside the outcome because the settings
override mutates the shared handle even when `process` later fails. -/
def IfcToFragmentsConverter.convert
    (process : IfcImporter → List Nat → Except String (List Nat))
    (now : String) (ifcData : List Nat) (options : ConversionOptions)
    (c : IfcToFragmentsConverter) :
    Except ConvError ConversionResult × IfcToFragmentsConverter :=
  match c.ifcImporter with
  | none =>
      (.error (.notInitialized
        "IFC importer not initialized. Call initialize() first."), c)
  | some imp =>
      let imp2 :=
        match options.coordinateToOrigin with
        | some b => { imp with webIfcSettings :=
            { imp.webIfcSettings with COORDINATE_TO_ORIGIN := b } }
        | none => imp
      let c2 := { c with ifcImporter := some imp2 }
      match process imp2 ifcData with
      | .error message =>
          (.error (.conversionError
            ("Failed to convert IFC to Fragments: " ++ message)), c2)
      | .ok fragmentsData =>
          (.ok { data := fragmentsData,
                 metadata := { name := options.name, timestamp := now,
                               size := fragmentsData.length,
                               options := options } }, c2)

/-- cleanup(): releases the handle reference when present, otherwise
does nothing; never fails. -/
def IfcToFragmentsConverter.cleanup (c : IfcToFragmentsConverter) :
    IfcToFragmentsConverter :=
  match c.ifcImporter with
  | some _ => { c with ifcImporter := none }
  | none => c

end IfcBackend

namespace IfcBackend

/-! ### File utilities (`src/utils/file-utils.ts`)

The file system is an association list from paths to byte contents. -/

/-- Transient storage: path to contents. -/
abbrev Storage := List (String × List Nat)

/-- readFileAsUint8Array: resolves with the contents, or rejects when
the path is absent (the ENOENT rejection of `fs.readFile`). -/
def readFileAsUint8Array (fs : Storage) (filePath : String) :
    Except String (List Nat) :=
  match fs.lookup filePath with
  | some bytes => .ok bytes
  | none => .error ("ENOENT: no such file or directory " ++ filePath)

/-- Effect of `fs.unlink` on storage: every entry at the path is gone. -/
def unlink (fs : Storage) (filePath : String) : Storage :=
  fs.filter (fun entry => entry.1 != filePath)

/-- deleteTempFile: unlinks the path; an ENOENT failure is ignored and
any other failure is logged, so no error ever propagates and the
storage effect is exactly the removal. -/
def deleteTempFile (fs : Storage) (filePath : String) : Storage :=
  unlink fs filePath

/-! ### Error middleware (errorHandler listing in README.md) -/

/-- The AppError surface read by the middleware: `name`, `message`,
`stack`, the optional `statusCode` and `status` of ApiError, the
`isOperational` marker, and whether a `body` property is present
(the `"body" in err` test of the JSON-syntax branch). Stack trace
contents are runtime dependent and modelled as an opaque string. -/
structure AppError where
  name : String
  message : String
  stack : String
  statusCode : Option Nat
  status : Option String
  isOperational : Bool
  hasBody : Bool
deriving DecidableEq, Repr

/-- The ApiError constructor: `status` is "fail" for 4xx and "error"
otherwise, `isOperational` is true; the class never overrides `name`,
which stays the inherited "Error". -/
def mkApiError (message : String) (statusCode : Nat) : AppError :=
  { name := "Error", message := message, stack := "Error: " ++ message,
    statusCode := some statusCode,
    status := some (if 400 ≤ statusCode ∧ statusCode < 500
                    then "fail" else "error"),
    isOperational := true, hasBody := false }

/-- A plain thrown `Error` (what convert() and the file utilities throw):
no statusCode, no status, not operational. -/
def plainError (message : String) : AppError :=
  { name := "Error", message := message, stack := "Error: " ++ message,
    statusCode := none, status := none,
    isOperational := false, hasBody := false }

/-- The MulterError raised when the 100 MiB `fileSize` limit is hit
(code LIMIT_FILE_SIZE, message "File too large"); it carries no
statusCode or status of its own. -/
def multerFileSizeError : AppError :=
  { name := "MulterError", message := "File too large",
    stack := "MulterError: File too large", statusCode := none,
    status := none, isOperational := false, hasBody := false }

/-- Structured JSON error body sent by the middleware. -/
structure ErrorBody where
  status : String
  message : String
  stack : Option String
deriving DecidableEq, Repr

/-- An error response: HTTP status code plus JSON body. -/
structure ErrorResponse where
  statusCode : Nat
  body : ErrorBody
deriving DecidableEq, Repr

/-- errorHandler from the middleware listing in README.md:
MulterError and JSON SyntaxError branches return 400 bodies with no
stack; the final branch uses the error fields, hides the message of
non-operational errors, and spreads the stack only outside
production. -/
def errorHandler (isProduction : Bool) (err : AppError) : ErrorResponse :=
  let statusCode := err.statusCode.getD 500
  let status := err.status.getD "error"
  if err.name == "MulterError" then
    { statusCode := 400,
      body := { status := "fail",
                message := "File upload error: " ++ err.message,
                stack := none } }
  else if err.name == "SyntaxError" && err.hasBody then
    { statusCode := 400,
      body := { status := "fail",
                message := "Invalid JSON in request body",
                stack := none } }
  else
    { statusCode := statusCode,
      body := { status := status,
                message := if err.isOperational then err.message
                           else "Internal server error",
                stack := if isProduction then none else some err.stack } }

/-- notFoundHandler: the 404 fault shape for unmatched routes. -/
def notFoundHandler (originalUrl : String) : ErrorResponse :=
  { statusCode := 404,
    body := { status := "fail",
              message := "Route " ++ originalUrl ++ " not found",
              stack := none } }

end IfcBackend

namespace IfcBackend

/-! ### Route handlers (`src/unnamed/part_000`, two variants) -/

/-- First-occurrence removal on character lists: at the first position
where `pat` matches, drop it and keep the remainder untouched;
otherwise keep scanning. -/
def removeFirstChars (pat : List Char) : List Char → List Char
  | [] => []
  | c :: rest =>
      if (c :: rest).take pat.length = pat then (c :: rest).drop pat.length
      else c :: removeFirstChars pat rest

/-- The JavaScript expression `s.replace(pat, "")` for a non-empty plain
string pattern: the first occurrence of `pat` is removed, the rest of
the string is unchanged; when `pat` does not occur the string is
returned as is. (Both call sites pass the pattern ".ifc".) -/
def jsReplaceEmpty (s pat : String) : String :=
  String.mk (removeFirstChars pat.data s.data)

/-- The multer file filter: accept when the mimetype is
"application/x-step" or the lowercased original name ends in ".ifc". -/
def fileFilterAccepts (originalname mimetype : String) : Bool :=
  mimetype == "application/x-step" || originalname.toLower.endsWith ".ifc"

/-- The configured `limits.fileSize`: 100 MiB. -/
def uploadFileSizeLimit : Nat := 100 * 1024 * 1024

/-- What multer hands the handler for an accepted upload (`req.file`). -/
structure UploadedFile where
  path : String
  originalname : String
  mimetype : String
deriving DecidableEq, Repr

/-- An inbound multipart file part, before staging. -/
structure RawUpload where
  originalname : String
  mimetype : String
  bytes : List Nat
deriving DecidableEq, Repr

/-- Outcome of the multer middleware for the single "ifc" field. -/
inductive StageOutcome where
  | noFile
  | rejected (e : AppError)
  | staged (f : UploadedFile)
deriving DecidableEq, Repr

/-- The multer stage of `POST /convert`: no file part leaves `req.file`
unset; a part failing the file filter is rejected with the
ApiError of the filter; a part over the `fileSize` limit is rejected
with the limit MulterError (nothing is left on disk); an accepted part
is persisted at the generated unique path and described to the
handler. `stagedPath` stands for the generated
`uploads/<timestamp>-<random>-<originalname>` destination. -/
def multerStage (stagedPath : String) (upload : Option RawUpload)
    (fs : Storage) : StageOutcome × Storage :=
  match upload with
  | none => (.noFile, fs)
  | some u =>
      if ¬ fileFilterAccepts u.originalname u.mimetype then
        (.rejected (mkApiError "Only IFC files are allowed" 400), fs)
      else if uploadFileSizeLimit < u.bytes.length then
        (.rejected multerFileSizeError, fs)
      else
        (.staged { path := stagedPath, originalname := u.originalname,
                   mimetype := u.mimetype },
         (stagedPath, u.bytes) :: fs)

/-- Name derivation of handler variant A:
`req.body.name || req.file.originalname.replace(".ifc", "")`.
The or-expression takes the fallback when the field is missing or is
the empty string (the only falsy string). -/
def deriveNameA (bodyName : Option String) (originalname : String) :
    String :=
  match bodyName with
  | some s => if s == "" then jsReplaceEmpty originalname ".ifc" else s
  | none => jsReplaceEmpty originalname ".ifc"

/-- Name derivation of handler variant B:
`typeof body.name === "string" ? body.name : fallback`; any present
string, the empty one included, is kept. -/
def deriveNameB (bodyName : Option String) (originalname : String) :
    String :=
  match bodyName with
  | some s => s
  | none => jsReplaceEmpty originalname ".ifc"

/-- Both variants derive coordinateToOrigin as
`req.body.coordinateToOrigin !== "false"`. -/
def deriveCoordinateToOrigin (field : Option String) : Bool :=
  field != some "false"

/-- The success response assembled by the handler: the three headers it
sets plus the binary body; the X-Fragments-Metadata header carries the
JSON serialization of the structured metadata kept here. -/
structure SuccessResponse where
  contentType : String
  contentDisposition : String
  contentLength : Nat
  fragmentsMetadata : ConversionMetadata
  body : List Nat
deriving DecidableEq, Repr

/-- Observable outcome of the handler: a success response, or the error
value passed to `next` for the error middleware. -/
inductive HandlerResult where
  | ok (resp : SuccessResponse)
  | err (e : AppError)
deriving DecidableEq, Repr

/-- The message of a ConvError, as carried by the thrown `Error`. -/
def ConvError.message : ConvError → String
  | .notInitialized m => m
  | .initializationError m => m
  | .conversionError m => m

/-- Handler body shared by both variants up to the name derivation
(`deriveName` is instantiated per variant). Mirrors the
try/catch/finally of the source: once `filePath` is set, every exit
path — read failure, conversion failure, success — runs
deleteTempFile on it; with no file, the 400 ApiError is thrown
before `filePath` is set and nothing is deleted. -/
def convertHandlerWith (deriveName : Option String → String → String)
    (process : IfcImporter → List Nat → Except String (List Nat))
    (now : String) (file : Option UploadedFile)
    (bodyName coordField : Option String)
    (fs : Storage) (conv : IfcToFragmentsConverter) :
    HandlerResult × Storage × IfcToFragmentsConverter :=
  match file with
  | none =>
      (.err (mkApiError
        "No IFC file uploaded. Please upload a file with field name \x27ifc\x27"
        400), fs, conv)
  | some f =>
      match readFileAsUint8Array fs f.path with
      | .error message =>
          (.err (plainError message), deleteTempFile fs f.path, conv)
      | .ok ifcData =>
          let name := deriveName bodyName f.originalname
          let options : ConversionOptions :=
            { name := some name,
              coordinateToOrigin := some (deriveCoordinateToOrigin coordField),
              excludedCategories := none, includeProperties := none }
          let r := conv.convert process now ifcData options
          match r.1 with
          | .error e =>
              (.err (plainError e.message), deleteTempFile fs f.path, r.2)
          | .ok result =>
              (.ok { contentType := "application/octet-stream",
                     contentDisposition :=
                       "attachment; filename=\"" ++ name ++ ".frag\"",
                     contentLength := result.data.length,
                     fragmentsMetadata := result.metadata,
                     body := result.data },
               deleteTempFile fs f.path, r.2)

/-- Full `POST /convert` pipeline, variant A (async handler,
lines 49 to 93 of part_000): multer staging, then the handler; a
multer rejection goes straight to the error middleware. -/
def postConvertA (process : IfcImporter → List Nat → Except String (List Nat))
    (now stagedPath : String) (upload : Option RawUpload)
    (bodyName coordField : Option String)
    (fs : Storage) (conv : IfcToFragmentsConverter) :
    HandlerResult × Storage × IfcToFragmentsConverter :=
  match multerStage stagedPath upload fs with
  | (.noFile, fs1) =>
      convertHandlerWith deriveNameA process now none bodyName coordField
        fs1 conv
  | (.rejected e, fs1) => (.err e, fs1, conv)
  | (.staged f, fs1) =>
      convertHandlerWith deriveNameA process now (some f) bodyName coordField
        fs1 conv

/-- Full `POST /convert` pipeline, variant B (promise-chain handler,
lines 158 to 207 of part_000): identical except for the name
derivation. -/
def postConvertB (process : IfcImporter → List Nat → Except String (List Nat))
    (now stagedPath : String) (upload : Option RawUpload)
    (bodyName coordField : Option String)
    (fs : Storage) (conv : IfcToFragmentsConverter) :
    HandlerResult × Storage × IfcToFragmentsConverter :=
  match multerStage stagedPath upload fs with
  | (.noFile, fs1) =>
      convertHandlerWith deriveNameB process now none bodyName coordField
        fs1 conv
  | (.rejected e, fs1) => (.err e, fs1, conv)
  | (.staged f, fs1) =>
      convertHandlerWith deriveNameB process now (some f) bodyName coordField
        fs1 conv

/-- Body of the `GET /status` readiness endpoint. -/
structure StatusBody where
  status : String
  ready : Bool
  service : String
  version : String
deriving DecidableEq, Repr

/-- The `GET /status` handler as written: it reads no converter state
and responds with a constant body whose `ready` field is the literal
`true`. The converter parameter is the process-wide singleton the
readiness probe is documented to report on. -/
def statusHandler (_conv : IfcToFragmentsConverter) : StatusBody :=
  { status := "ok", ready := true,
    service := "IFC to Fragments Converter", version := "1.0.0" }

end IfcBackend

namespace IfcBackend

/-! ### Concrete fixtures used by witnesses and counterexamples -/

/-- An engine transform that succeeds with a fixed five-byte output
(the shape of the test-suite mock). -/
def procMock : IfcImporter → List Nat → Except String (List Nat) :=
  fun _ _ => .ok [1, 2, 3, 4, 5]

/-- A fresh engine instance as delivered by the external constructor. -/
def freshImporter : IfcImporter :=
  { wasm := { path := "", absolute := true },
    webIfcSettings := { COORDINATE_TO_ORIGIN := false },
    includeUniqueAttributes := false, includeRelationNames := false,
    abstractClasses := [], relations := [] }

/-- Options value for a call that passes none (the `{}` default). -/
def emptyOptions : ConversionOptions :=
  { coordinateToOrigin := none, name := none,
    excludedCategories := none, includeProperties := none }

/-- A converter in the Ready state, as after a successful initialize(). -/
def convReady : IfcToFragmentsConverter :=
  { ifcImporter := some (configureImporter IfcToFragmentsConverter.new
      freshImporter),
    wasmPath := "./node_modules/web-ifc/" }

/-- A well-formed small upload. -/
def sampleUpload : RawUpload :=
  { originalname := "building.ifc", mimetype := "application/x-step",
    bytes := [7, 8, 9] }

/-! ### Claim C4 -/

/-- Claim C4: convert() on an uninitialized converter (handle absent,
whether never initialized or after cleanup) fails with the
NotInitializedError message, independently of the engine transform
(which is therefore never invoked), and returns the converter state
unchanged. -/
theorem C4_convert_uninitialized_fails
    (process : IfcImporter → List Nat → Except String (List Nat))
    (now : String) (ifcData : List Nat) (options : ConversionOptions)
    (c : IfcToFragmentsConverter) (h : c.ifcImporter = none) :
    c.convert process now ifcData options =
      (Except.error (ConvError.notInitialized
        "IFC importer not initialized. Call initialize() first."), c) := by
  unfold IfcToFragmentsConverter.convert
  rw [h]

/-- Witness for C4 at the freshly constructed singleton. -/
theorem C4_convert_uninitialized_fails_witness :
    IfcToFragmentsConverter.new.ifcImporter = none ∧
    IfcToFragmentsConverter.new.convert procMock "t0" [7] emptyOptions =
      (Except.error (ConvError.notInitialized
        "IFC importer not initialized. Call initialize() first."),
       IfcToFragmentsConverter.new) :=
  ⟨rfl, C4_convert_uninitialized_fails procMock "t0" [7] emptyOptions
    IfcToFragmentsConverter.new rfl⟩

/-! ### Claim C5 -/

/-- Claim C5: from any state, cleanup() followed by an initialize()
whose engine construction succeeds leaves the converter Ready, and a
subsequent convert() never fails with the NotInitializedError;
moreover cleanup() on an uninitialized converter is a no-op (and it
never raises). -/
theorem C5_cleanup_then_initialize_ready
    (c : IfcToFragmentsConverter) (imp0 : IfcImporter) :
    (∃ c2, c.cleanup.initialize (.ok imp0) = .ok c2 ∧
       c2.isReady = true ∧
       ∀ (process : IfcImporter → List Nat → Except String (List Nat))
         (now : String) (ifcData : List Nat) (options : ConversionOptions)
         (message : String),
         (c2.convert process now ifcData options).1 ≠
           Except.error (ConvError.notInitialized message)) ∧
    (∀ d : IfcToFragmentsConverter, d.ifcImporter = none → d.cleanup = d) := by
  constructor
  · refine ⟨{ c.cleanup with
      ifcImporter := some (configureImporter c.cleanup imp0) }, rfl, rfl, ?_⟩
    intro process now ifcData options message
    unfold IfcToFragmentsConverter.convert
    cases hp : process (match options.coordinateToOrigin with
      | some b => { configureImporter c.cleanup imp0 with webIfcSettings :=
          { (configureImporter c.cleanup imp0).webIfcSettings with
            COORDINATE_TO_ORIGIN := b } }
      | none => configureImporter c.cleanup imp0) ifcData <;> simp [hp]
  · intro d hd
    unfold IfcToFragmentsConverter.cleanup
    rw [hd]

/-- Witness for C5: re-initialization of the worked singleton after
cleanup, and the no-op cleanup of the uninitialized singleton. -/
theorem C5_cleanup_then_initialize_ready_witness :
    IfcToFragmentsConverter.new.cleanup = IfcToFragmentsConverter.new ∧
    ∃ c2, convReady.cleanup.initialize (.ok freshImporter) = .ok c2 ∧
      c2.isReady = true := by
  refine ⟨(C5_cleanup_then_initialize_ready convReady freshImporter).2
    IfcToFragmentsConverter.new rfl, ?_⟩
  obtain ⟨c2, h1, h2, _⟩ :=
    (C5_cleanup_then_initialize_ready convReady freshImporter).1
  exact ⟨c2, h1, h2⟩

/-! ### Claim C10 -/

/-- Claim C10: on a Ready converter, a convert() whose options leave
coordinateToOrigin undefined leaves the whole converter state — in
particular the persistent webIfcSettings of the engine handle —
unchanged, whatever the engine transform returns; only a call with a
defined coordinateToOrigin rewrites that shared setting, to exactly
the supplied value. -/
theorem C10_webifc_settings_frame
    (process : IfcImporter → List Nat → Except String (List Nat))
    (now : String) (ifcData : List Nat) (options : ConversionOptions)
    (c : IfcToFragmentsConverter) (imp : IfcImporter)
    (h : c.ifcImporter = some imp) :
    (options.coordinateToOrigin = none →
       (c.convert process now ifcData options).2 = c) ∧
    (∀ b, options.coordinateToOrigin = some b →
       (c.convert process now ifcData options).2.ifcImporter =
         some { imp with webIfcSettings :=
           { imp.webIfcSettings with COORDINATE_TO_ORIGIN := b } }) := by
  obtain ⟨ci, wp⟩ := c
  simp only [] at h
  subst h
  constructor
  · intro hco
    unfold IfcToFragmentsConverter.convert
    simp only [hco]
    split <;> rfl
  · intro b hco
    unfold IfcToFragmentsConverter.convert
    simp only [hco]
    split <;> rfl

end IfcBackend

namespace IfcBackend

/-- Witness for C10 on the Ready fixture: a call with the empty options
leaves the converter untouched; a call overriding the setting to
false rewrites it. -/
theorem C10_webifc_settings_frame_witness :
    (convReady.convert procMock "t0" [7] emptyOptions).2 = convReady ∧
    (convReady.convert procMock "t0" [7]
        { emptyOptions with coordinateToOrigin := some false }).2.ifcImporter =
      some { configureImporter IfcToFragmentsConverter.new freshImporter with
        webIfcSettings := { COORDINATE_TO_ORIGIN := false } } := by
  constructor
  · exact (C10_webifc_settings_frame procMock "t0" [7] emptyOptions convReady
      (configureImporter IfcToFragmentsConverter.new freshImporter) rfl).1 rfl
  · exact (C10_webifc_settings_frame procMock "t0" [7]
      { emptyOptions with coordinateToOrigin := some false } convReady
      (configureImporter IfcToFragmentsConverter.new freshImporter) rfl).2
      false rfl

end IfcBackend

namespace IfcBackend

/-! ### Claim C1 -/

/-- Unlinking a path removes every entry at it. -/
theorem lookup_unlink (fs : Storage) (p : String) :
    (unlink fs p).lookup p = none := by
  induction fs with
  | nil => rfl
  | cons a t ih =>
      obtain ⟨k, v⟩ := a
      unfold unlink at ih ⊢
      rw [List.filter_cons]
      by_cases hh : k = p
      · simpa [hh] using ih
      · have h1 : ((k, v).1 != p) = true := by simpa using hh
        rw [if_pos h1]
        have h2 : (p == k) = false := by simpa using Ne.symm hh
        simpa [List.lookup, h2] using ih

/-- deleteTempFile leaves nothing at the path. -/
theorem deleteTempFile_lookup (fs : Storage) (p : String) :
    (deleteTempFile fs p).lookup p = none :=
  lookup_unlink fs p

/-- Once a file reached the handler, every exit path of the
try/catch/finally ends with deleteTempFile on its staged path. -/
theorem convertHandlerWith_storage_some
    (deriveName : Option String → String → String)
    (process : IfcImporter → List Nat → Except String (List Nat))
    (now : String) (f : UploadedFile) (bodyName coordField : Option String)
    (fs : Storage) (conv : IfcToFragmentsConverter) :
    (convertHandlerWith deriveName process now (some f) bodyName coordField
      fs conv).2.1 = deleteTempFile fs f.path := by
  simp only [convertHandlerWith]
  split
  · rfl
  · split <;> rfl

/-- Claim C1: whatever the outcome of a `POST /convert` request —
success, validation failure (no file or rejected file), read failure,
or conversion failure — the staged upload path is absent from storage
once processing completes, provided the generated path was fresh. -/
theorem C1_staged_upload_absent
    (process : IfcImporter → List Nat → Except String (List Nat))
    (now stagedPath : String) (upload : Option RawUpload)
    (bodyName coordField : Option String) (fs : Storage)
    (conv : IfcToFragmentsConverter)
    (hfresh : fs.lookup stagedPath = none) :
    ((postConvertA process now stagedPath upload bodyName coordField fs
      conv).2.1).lookup stagedPath = none := by
  unfold postConvertA multerStage
  cases upload with
  | none => simpa [convertHandlerWith] using hfresh
  | some u =>
      by_cases hflt : fileFilterAccepts u.originalname u.mimetype
      · by_cases hsz : uploadFileSizeLimit < u.bytes.length
        · simpa [hflt, hsz] using hfresh
        · simp only [hflt, hsz, not_true_eq_false, if_false, if_neg,
            not_false_eq_true, if_true]
          rw [convertHandlerWith_storage_some]
          exact deleteTempFile_lookup _ _
      · simpa [hflt] using hfresh

/-- Witness for C1: a successful conversion of the sample upload on an
empty storage, staged at a fresh path, leaves nothing behind. -/
theorem C1_staged_upload_absent_witness :
    (([] : Storage).lookup "uploads/1-2-building.ifc" = none) ∧
    ((postConvertA procMock "t0" "uploads/1-2-building.ifc"
      (some sampleUpload) none none [] convReady).2.1).lookup
        "uploads/1-2-building.ifc" = none :=
  ⟨rfl, C1_staged_upload_absent procMock "t0" "uploads/1-2-building.ifc"
    (some sampleUpload) none none [] convReady rfl⟩

end IfcBackend

namespace IfcBackend

/-! ### Claim C2 -/

/-- Claim C2 (divergence witness): the `GET /status` handler returns the
literal `ready := true` for every converter state; in particular it
still reports ready on the Uninitialized fresh singleton, whose
Ready predicate is false. The claim (and the API documentation of the
field) requires `ready` to be false there. -/
theorem C2_status_ready_is_constant :
    (∀ c : IfcToFragmentsConverter, (statusHandler c).ready = true) ∧
    IfcToFragmentsConverter.new.isReady = false ∧
    (statusHandler IfcToFragmentsConverter.new).ready ≠
      IfcToFragmentsConverter.new.isReady :=
  ⟨fun _ => rfl, rfl, by decide⟩

/-! ### Claim C3 -/

/-- An upload one byte over the configured 100 MiB limit. -/
def oversizedUpload : RawUpload :=
  { originalname := "big.ifc", mimetype := "application/x-step",
    bytes := List.replicate (uploadFileSizeLimit + 1) 0 }

/-- A filtered-in upload over the size limit is rejected by the multer
stage with the limit MulterError and the pipeline forwards exactly
that error, touching neither storage nor the converter. -/
theorem postConvertA_oversized
    (process : IfcImporter → List Nat → Except String (List Nat))
    (now stagedPath : String) (u : RawUpload)
    (bodyName coordField : Option String) (fs : Storage)
    (conv : IfcToFragmentsConverter)
    (hflt : fileFilterAccepts u.originalname u.mimetype = true)
    (hsz : uploadFileSizeLimit < u.bytes.length) :
    postConvertA process now stagedPath (some u) bodyName coordField fs
      conv = (.err multerFileSizeError, fs, conv) := by
  unfold postConvertA multerStage
  simp [hflt, hsz]

/-- Counterexample to C3 as stated: the oversized upload is rejected
with the limit MulterError, and the error middleware translates it to
HTTP 400 in both environment modes — never 413. -/
theorem C3_counterexample :
    (postConvertA procMock "t0" "uploads/big" (some oversizedUpload)
      none none [] convReady).1 = .err multerFileSizeError ∧
    (errorHandler true multerFileSizeError).statusCode = 400 ∧
    (errorHandler false multerFileSizeError).statusCode = 400 ∧
    (400 : Nat) ≠ 413 :=
  ⟨congrArg Prod.fst (postConvertA_oversized procMock "t0" "uploads/big"
      oversizedUpload none none [] convReady rfl
      (by simp [oversizedUpload])),
   rfl, rfl, by decide⟩

/-- Claim C3 amended: an upload whose payload exceeds the 100 MiB limit
is rejected with the LIMIT_FILE_SIZE MulterError, and the error
middleware translates every MulterError to HTTP 400 with the
client-fault shape (status "fail", message "File upload error: File
too large") in either environment mode — the same 400 class as the
other client faults, not 413. -/
theorem C3_oversized_upload_maps_to_400
    (process : IfcImporter → List Nat → Except String (List Nat))
    (now stagedPath : String) (u : RawUpload)
    (bodyName coordField : Option String) (fs : Storage)
    (conv : IfcToFragmentsConverter) (isProduction : Bool)
    (hflt : fileFilterAccepts u.originalname u.mimetype = true)
    (hsz : uploadFileSizeLimit < u.bytes.length) :
    (postConvertA process now stagedPath (some u) bodyName coordField fs
      conv).1 = .err multerFileSizeError ∧
    errorHandler isProduction multerFileSizeError =
      { statusCode := 400,
        body := { status := "fail",
                  message := "File upload error: File too large",
                  stack := none } } := by
  exact ⟨congrArg Prod.fst (postConvertA_oversized process now stagedPath
    u bodyName coordField fs conv hflt hsz), rfl⟩

/-- Witness for the amended C3 at the concrete oversized upload. -/
theorem C3_oversized_upload_maps_to_400_witness :
    (postConvertA procMock "t0" "uploads/big2" (some oversizedUpload)
      none none [] convReady).1 = .err multerFileSizeError ∧
    errorHandler true multerFileSizeError =
      { statusCode := 400,
        body := { status := "fail",
                  message := "File upload error: File too large",
                  stack := none } } :=
  C3_oversized_upload_maps_to_400 procMock "t0" "uploads/big2"
    oversizedUpload none none [] convReady true rfl
    (by simp [oversizedUpload])

end IfcBackend

namespace IfcBackend

/-! ### Success inversion for the convert pipeline -/

/-- A successful convert() stamps the metadata exactly from the call:
the options name, the completion timestamp, the output byte count,
and the options record itself. -/
theorem convert_ok_metadata
    (process : IfcImporter → List Nat → Except String (List Nat))
    (now : String) (ifcData : List Nat) (options : ConversionOptions)
    (c : IfcToFragmentsConverter) (result : ConversionResult)
    (h : (c.convert process now ifcData options).1 = .ok result) :
    result.metadata =
      { name := options.name, timestamp := now,
        size := result.data.length, options := options } := by
  obtain ⟨ci, wp⟩ := c
  cases ci with
  | none => simp [IfcToFragmentsConverter.convert] at h
  | some imp =>
      simp only [IfcToFragmentsConverter.convert] at h
      split at h
      · exact absurd h (by simp)
      · rw [Except.ok.injEq] at h
        rw [← h]

/-- Success inversion for the shared handler body: the response records
the derived name in the disposition header and the metadata, and the
metadata options are exactly the derived ones. -/
theorem convertHandlerWith_ok
    (deriveName : Option String → String → String)
    (process : IfcImporter → List Nat → Except String (List Nat))
    (now : String) (f : UploadedFile) (bodyName coordField : Option String)
    (fs : Storage) (conv : IfcToFragmentsConverter) (resp : SuccessResponse)
    (h : (convertHandlerWith deriveName process now (some f) bodyName
      coordField fs conv).1 = .ok resp) :
    resp.contentDisposition =
      "attachment; filename=\"" ++ deriveName bodyName f.originalname ++
        ".frag\"" ∧
    resp.fragmentsMetadata.name =
      some (deriveName bodyName f.originalname) ∧
    resp.fragmentsMetadata.options =
      { coordinateToOrigin := some (deriveCoordinateToOrigin coordField),
        name := some (deriveName bodyName f.originalname),
        excludedCategories := none, includeProperties := none } := by
  simp only [convertHandlerWith] at h
  split at h
  · exact absurd h (by simp)
  · split at h
    · exact absurd h (by simp)
    · rename_i result hconv
      simp only [HandlerResult.ok.injEq] at h
      have hm := convert_ok_metadata _ _ _ _ _ _ hconv
      rw [← h]
      simp [hm]

/-- Success inversion for pipeline variant A: only a staged upload can
succeed, and the success is that of the handler body on the staged
file. -/
theorem postConvertA_ok
    (process : IfcImporter → List Nat → Except String (List Nat))
    (now stagedPath : String) (upload : Option RawUpload)
    (bodyName coordField : Option String) (fs : Storage)
    (conv : IfcToFragmentsConverter) (resp : SuccessResponse)
    (h : (postConvertA process now stagedPath upload bodyName coordField fs
      conv).1 = .ok resp) :
    ∃ u, upload = some u ∧
      (convertHandlerWith deriveNameA process now
        (some { path := stagedPath, originalname := u.originalname,
                mimetype := u.mimetype })
        bodyName coordField ((stagedPath, u.bytes) :: fs) conv).1 =
      .ok resp := by
  unfold postConvertA multerStage at h
  cases upload with
  | none => simp [convertHandlerWith] at h
  | some u =>
      by_cases hflt : fileFilterAccepts u.originalname u.mimetype
      · by_cases hsz : uploadFileSizeLimit < u.bytes.length
        · simp [hflt, hsz] at h
        · exact ⟨u, rfl, by simpa [hflt, hsz] using h⟩
      · simp [hflt] at h

end IfcBackend

namespace IfcBackend

/-! ### Claim C6 -/

/-- Claim C6: the derived coordinateToOrigin is true exactly when the
form field value is not the literal string "false" (an absent field
or any other string yields true), and the metadata of any successful
response carries exactly that derived boolean in its nested
options. -/
theorem C6_coordinate_to_origin_derivation (coordField : Option String) :
    (deriveCoordinateToOrigin coordField = true ↔
      coordField ≠ some "false") ∧
    (∀ (process : IfcImporter → List Nat → Except String (List Nat))
       (now stagedPath : String) (upload : Option RawUpload)
       (bodyName : Option String) (fs : Storage)
       (conv : IfcToFragmentsConverter) (resp : SuccessResponse),
       (postConvertA process now stagedPath upload bodyName coordField fs
         conv).1 = .ok resp →
       resp.fragmentsMetadata.options.coordinateToOrigin =
         some (deriveCoordinateToOrigin coordField)) := by
  constructor
  · simp [deriveCoordinateToOrigin, bne_iff_ne]
  · intro process now stagedPath upload bodyName fs conv resp h
    obtain ⟨u, -, hh⟩ := postConvertA_ok process now stagedPath upload
      bodyName coordField fs conv resp h
    obtain ⟨-, -, hopts⟩ := convertHandlerWith_ok deriveNameA process now
      _ bodyName coordField _ conv resp hh
    rw [hopts]

/-- The response of the sample request carrying coordinateToOrigin
"false". -/
def respCoordFalse : SuccessResponse :=
  { contentType := "application/octet-stream",
    contentDisposition := "attachment; filename=\"building.frag\"",
    contentLength := 5,
    fragmentsMetadata :=
      { name := some "building", timestamp := "t0", size := 5,
        options := { coordinateToOrigin := some false,
                     name := some "building",
                     excludedCategories := none,
                     includeProperties := none } },
    body := [1, 2, 3, 4, 5] }

/-- Witness for C6: the concrete request with the field set to "false"
succeeds and its metadata options carry the derived false. -/
theorem C6_coordinate_to_origin_derivation_witness :
    (postConvertA procMock "t0" "uploads/p" (some sampleUpload) none
      (some "false") [] convReady).1 = .ok respCoordFalse ∧
    respCoordFalse.fragmentsMetadata.options.coordinateToOrigin =
      some (deriveCoordinateToOrigin (some "false")) :=
  ⟨rfl, (C6_coordinate_to_origin_derivation (some "false")).2 procMock "t0"
    "uploads/p" (some sampleUpload) none [] convReady respCoordFalse rfl⟩

/-! ### Claim C7 -/

/-- An accepted upload whose extension is not the lowercase ".ifc". -/
def upperCaseUpload : RawUpload :=
  { originalname := "MODEL.IFC", mimetype := "application/x-step",
    bytes := [7] }

/-- Counterexample to C7 as stated: with no name field and the original
filename "MODEL.IFC", the request succeeds but the derived name keeps
the upper-case extension (the code removes only the literal lowercase
".ifc"), so the stated "extension stripped for any casing" value
"MODEL" is not produced, in neither the disposition header nor the
metadata. -/
theorem C7_counterexample :
    (postConvertA procMock "t0" "uploads/q" (some upperCaseUpload) none
      none [] convReady).1 =
      .ok { contentType := "application/octet-stream",
            contentDisposition :=
              "attachment; filename=\"MODEL.IFC.frag\"",
            contentLength := 5,
            fragmentsMetadata :=
              { name := some "MODEL.IFC", timestamp := "t0", size := 5,
                options := { coordinateToOrigin := some true,
                             name := some "MODEL.IFC",
                             excludedCategories := none,
                             includeProperties := none } },
            body := [1, 2, 3, 4, 5] } ∧
    ("MODEL.IFC" : String) ≠ "MODEL" :=
  ⟨rfl, by decide⟩

/-- Claim C7 amended: for every successful request the derived name is
the name field when present and non-empty, otherwise the original
filename with the first occurrence of the literal lowercase substring
".ifc" removed (an extension in any other casing is left in place);
the disposition header is that name followed by ".frag" inside the
attachment filename, and the metadata name equals it. -/
theorem C7_name_derivation
    (process : IfcImporter → List Nat → Except String (List Nat))
    (now stagedPath : String) (u : RawUpload)
    (bodyName coordField : Option String) (fs : Storage)
    (conv : IfcToFragmentsConverter) (resp : SuccessResponse)
    (h : (postConvertA process now stagedPath (some u) bodyName coordField
      fs conv).1 = .ok resp) :
    resp.contentDisposition =
      "attachment; filename=\"" ++ deriveNameA bodyName u.originalname ++
        ".frag\"" ∧
    resp.fragmentsMetadata.name =
      some (deriveNameA bodyName u.originalname) ∧
    (∀ s, bodyName = some s → s ≠ "" →
      deriveNameA bodyName u.originalname = s) ∧
    (bodyName = none →
      deriveNameA bodyName u.originalname =
        jsReplaceEmpty u.originalname ".ifc") ∧
    (bodyName = some "" →
      deriveNameA bodyName u.originalname =
        jsReplaceEmpty u.originalname ".ifc") := by
  obtain ⟨u2, hu, hh⟩ := postConvertA_ok process now stagedPath (some u)
    bodyName coordField fs conv resp h
  rw [Option.some.injEq] at hu
  subst hu
  obtain ⟨hdisp, hname, -⟩ := convertHandlerWith_ok deriveNameA process now
    _ bodyName coordField _ conv resp hh
  refine ⟨hdisp, hname, ?_, ?_, ?_⟩
  · intro s hs hne
    subst hs
    simp [deriveNameA, hne]
  · intro hs
    subst hs
    rfl
  · intro hs
    subst hs
    rfl

/-- The response of the sample request with the name field "Acme". -/
def respAcme : SuccessResponse :=
  { contentType := "application/octet-stream",
    contentDisposition := "attachment; filename=\"Acme.frag\"",
    contentLength := 5,
    fragmentsMetadata :=
      { name := some "Acme", timestamp := "t0", size := 5,
        options := { coordinateToOrigin := some true,
                     name := some "Acme",
                     excludedCategories := none,
                     includeProperties := none } },
    body := [1, 2, 3, 4, 5] }

/-- Witness for the amended C7 on the concrete request that names the
output "Acme". -/
theorem C7_name_derivation_witness :
    (postConvertA procMock "t0" "uploads/p2" (some sampleUpload)
      (some "Acme") none [] convReady).1 = .ok respAcme ∧
    respAcme.contentDisposition =
      "attachment; filename=\"" ++
        deriveNameA (some "Acme") sampleUpload.originalname ++ ".frag\"" ∧
    respAcme.fragmentsMetadata.name =
      some (deriveNameA (some "Acme") sampleUpload.originalname) := by
  have hh := C7_name_derivation procMock "t0" "uploads/p2" sampleUpload
    (some "Acme") none [] convReady respAcme rfl
  exact ⟨rfl, hh.1, hh.2.1⟩

end IfcBackend

namespace IfcBackend

/-! ### Claim C8 -/

/-- Counterexample to C8 as stated: a MulterError fault translated in
non-production mode still carries no stack field in its body, even
though the underlying error has a stack — the "non-production appends
a diagnostic trace" half fails on the MulterError branch. -/
theorem C8_counterexample :
    (errorHandler false multerFileSizeError).statusCode = 400 ∧
    (errorHandler false multerFileSizeError).body.stack = none ∧
    multerFileSizeError.stack = "MulterError: File too large" :=
  ⟨rfl, rfl, rfl⟩

/-- Claim C8 amended: production responses never contain a stack field;
status code, status discriminator and message are identical in both
modes for every fault; and the generic branch (any fault other than a
MulterError or a JSON SyntaxError with a body) does append the stack
in non-production mode. -/
theorem C8_stack_exposure (err : AppError) :
    ((errorHandler true err).body.stack = none) ∧
    (∀ isProduction : Bool,
       (errorHandler isProduction err).statusCode =
         (errorHandler true err).statusCode ∧
       (errorHandler isProduction err).body.status =
         (errorHandler true err).body.status ∧
       (errorHandler isProduction err).body.message =
         (errorHandler true err).body.message) ∧
    (err.name ≠ "MulterError" →
     ¬(err.name = "SyntaxError" ∧ err.hasBody = true) →
     (errorHandler false err).body.stack = some err.stack) := by
  by_cases h1 : err.name = "MulterError"
  · simp [errorHandler, h1]
  · by_cases h2a : err.name = "SyntaxError"
    · by_cases h2b : err.hasBody = true
      · simp [errorHandler, h1, h2a, h2b]
      · simp [errorHandler, h1, h2a, h2b]
    · simp [errorHandler, h1, h2a]

/-- Witness for the amended C8 on a plain conversion-failure error. -/
theorem C8_stack_exposure_witness :
    ((errorHandler true (plainError "boom")).body.stack = none) ∧
    ((errorHandler false (plainError "boom")).body.stack =
      some (plainError "boom").stack) :=
  ⟨(C8_stack_exposure (plainError "boom")).1,
   (C8_stack_exposure (plainError "boom")).2.2 (by decide) (by decide)⟩

/-! ### Claim C9 -/

/-- Counterexample to C9 as stated: on the request whose name field is
the empty string, the two handler variants produce different
responses (variant A falls back to the filename-derived name,
variant B keeps the empty name). -/
theorem C9_counterexample :
    (postConvertA procMock "t0" "uploads/p3" (some sampleUpload) (some "")
      none [] convReady).1 ≠
    (postConvertB procMock "t0" "uploads/p3" (some sampleUpload) (some "")
      none [] convReady).1 := by decide

/-- The handler body only consults the derivation at the request body
name and the staged originalname, so agreeing derivations give equal
outcomes. -/
theorem convertHandlerWith_congr
    (d1 d2 : Option String → String → String)
    (process : IfcImporter → List Nat → Except String (List Nat))
    (now : String) (file : Option UploadedFile)
    (bodyName coordField : Option String) (fs : Storage)
    (conv : IfcToFragmentsConverter)
    (hd : ∀ originalname, d1 bodyName originalname =
      d2 bodyName originalname) :
    convertHandlerWith d1 process now file bodyName coordField fs conv =
    convertHandlerWith d2 process now file bodyName coordField fs conv := by
  cases file with
  | none => rfl
  | some f =>
      simp only [convertHandlerWith]
      rw [hd]

/-- Claim C9 amended: the two `POST /convert` variants are
observationally equivalent for every request whose name field is not
the empty string (absent, or any non-empty value); they differ
exactly on the empty-string name field. -/
theorem C9_variants_equivalent_nonempty_name
    (process : IfcImporter → List Nat → Except String (List Nat))
    (now stagedPath : String) (upload : Option RawUpload)
    (bodyName coordField : Option String) (fs : Storage)
    (conv : IfcToFragmentsConverter)
    (h : bodyName ≠ some "") :
    postConvertA process now stagedPath upload bodyName coordField fs
      conv =
    postConvertB process now stagedPath upload bodyName coordField fs
      conv := by
  have hd : ∀ originalname, deriveNameA bodyName originalname =
      deriveNameB bodyName originalname := by
    intro originalname
    cases bodyName with
    | none => rfl
    | some s =>
        have hs : ¬ s = "" := fun hs0 => h (by rw [hs0])
        simp [deriveNameA, deriveNameB, hs]
  unfold postConvertA postConvertB
  rcases hms : multerStage stagedPath upload fs with ⟨so, fs1⟩
  cases so with
  | noFile =>
      exact convertHandlerWith_congr deriveNameA deriveNameB process now
        none bodyName coordField fs1 conv hd
  | rejected e => rfl
  | staged f =>
      exact convertHandlerWith_congr deriveNameA deriveNameB process now
        (some f) bodyName coordField fs1 conv hd

/-- Witness for the amended C9 on the request naming the output
"Acme". -/
theorem C9_variants_equivalent_nonempty_name_witness :
    postConvertA procMock "t0" "uploads/p4" (some sampleUpload)
      (some "Acme") none [] convReady =
    postConvertB procMock "t0" "uploads/p4" (some sampleUpload)
      (some "Acme") none [] convReady :=
  C9_variants_equivalent_nonempty_name procMock "t0" "uploads/p4"
    (some sampleUpload) (some "Acme") none [] convReady (by decide)

end IfcBackend
